import Mathlib

/-!
Verification of the meditation-pal turn-taking core.

This file gives a shallow embedding of the core components of the
repository and proves properties about them:

* src/facilitation/prompts.py  — parse_hold_signal
* src/facilitation/pacing.py   — PacingController
* src/facilitation/session.py  — SessionManager
* src/audio/vad.py             — VoiceActivityDetector (energy VAD)

Python strings are modelled as List Char; wall-clock times (Python
floats from time.time()) are modelled as rationals; Python exceptions
are modelled with Except.
-/

namespace MeditationPal

/-! Python string primitives used by parse_hold_signal. -/

/-- Characters removed by Python str.strip with no argument
(ASCII whitespace; the inputs of interest are ASCII). -/
def pyIsSpace (c : Char) : Bool :=
  c = ' ' || c = '\t' || c = '\n' || c = '\r' || c = '\x0b' || c = '\x0c'

/-- Python str.strip: remove leading and trailing whitespace. -/
def pyStrip (s : List Char) : List Char :=
  (((s.dropWhile pyIsSpace).reverse).dropWhile pyIsSpace).reverse

/-- Python str.upper (ASCII letters, which covers the marker characters). -/
def pyUpper (s : List Char) : List Char := s.map Char.toUpper

/-- Embedding of parse_hold_signal (src/facilitation/prompts.py, lines 394-405):
strip the response, test whether its uppercase form starts with the
marker text left-bracket HOLD right-bracket, and if so return True together
with the text after the 6-character marker, stripped again; otherwise
return False with the stripped text. -/
def parse_hold_signal (response : List Char) : Bool × List Char :=
  let stripped := pyStrip response
  if List.isPrefixOf "[HOLD]".data (pyUpper stripped) then
    (true, pyStrip (stripped.drop 6))
  else
    (false, stripped)

/-! Embedding of src/facilitation/pacing.py. -/

/-- ConversationState enum from pacing.py. -/
inductive ConversationState where
  | IDLE
  | LISTENING
  | PROCESSING
  | RESPONDING
  | SILENT_HOLD
  | DEEP_SILENCE
deriving DecidableEq

/-- TurnDecision enum from pacing.py. -/
inductive TurnDecision where
  | WAIT
  | RESPOND
  | CHECK_IN
  | HOLD
deriving DecidableEq

/-- PacingConfig dataclass from pacing.py (Python ints). -/
structure PacingConfig where
  response_delay_ms : ℤ := 2000
  min_speech_duration_ms : ℤ := 500
  extended_silence_sec : ℤ := 60
deriving DecidableEq

/-- State of a PacingController instance.  Wall-clock values held in the
fields are rationals; _last_speech_end and _last_response_time use the
sentinel 0 exactly as the Python code does. -/
structure PacingController where
  config : PacingConfig
  _state : ConversationState
  _last_speech_end : ℚ
  _last_response_time : ℚ
  _silence_mode_start : Option ℚ
deriving DecidableEq

/-- Embedding of PacingController.exit_silence_mode. -/
def exit_silence_mode (p : PacingController) : PacingController :=
  { p with _state := ConversationState.LISTENING, _silence_mode_start := none }

/-- Embedding of PacingController.enter_silence_mode; the wall clock is
passed explicitly in place of time.time(). -/
def enter_silence_mode (p : PacingController) (now : ℚ) : PacingController :=
  { p with _state := ConversationState.SILENT_HOLD, _silence_mode_start := some now }

/-- Embedding of PacingController.is_in_silence_mode. -/
def is_in_silence_mode (p : PacingController) : Bool :=
  p._silence_mode_start.isSome

/-- Embedding of PacingController.on_transcription (pacing.py lines 90-106):
if a silence-mode start time is recorded, exit silence mode; always return
RESPOND.  The text argument is unused by the source as well. -/
def on_transcription (p : PacingController) (_text : List Char) :
    PacingController × TurnDecision :=
  match p._silence_mode_start with
  | some _ => (exit_silence_mode p, TurnDecision.RESPOND)
  | none => (p, TurnDecision.RESPOND)

/-- Embedding of PacingController.should_respond (pacing.py lines 108-141);
the wall clock is passed explicitly in place of time.time().  The Python
fall-through (the RESPOND test only fires when _last_speech_end > 0, and
otherwise execution continues to the check-in test) is rendered as nested
conditionals. -/
def should_respond (p : PacingController) (now : ℚ) : TurnDecision :=
  match p._silence_mode_start with
  | some start =>
      if (p.config.extended_silence_sec : ℚ) ≤ now - start then
        TurnDecision.CHECK_IN
      else
        TurnDecision.HOLD
  | none =>
      if 0 < p._last_speech_end ∧
          (p.config.response_delay_ms : ℚ) / 1000 ≤ now - p._last_speech_end then
        TurnDecision.RESPOND
      else if (p.config.extended_silence_sec : ℚ) ≤ now - p._last_response_time then
        TurnDecision.CHECK_IN
      else
        TurnDecision.WAIT

/-! Embedding of src/facilitation/session.py. -/

/-- Message role of an Exchange. -/
inductive Role where
  | user
  | assistant
deriving DecidableEq

/-- Exchange dataclass from session.py: one utterance with a timestamp
(timestamps are wall-clock values, modelled as rationals). -/
structure Exchange where
  role : Role
  content : List Char
  timestamp : ℚ
deriving DecidableEq

/-- SessionState dataclass from session.py. -/
structure SessionState where
  session_id : List Char := []
  start_time : ℚ := 0
  end_time : Option ℚ := none
  exchanges : List Exchange := []
  tags : List (List Char) := []
  notes : List Char := []
deriving DecidableEq

/-- Context strategy literal of SessionManager ("rolling" or "full"). -/
inductive ContextStrategy where
  | rolling
  | full
deriving DecidableEq

/-- SessionManager state: the strategy, the window size (a Python int,
so an integer) and the optional current SessionState. -/
structure SessionManager where
  context_strategy : ContextStrategy := ContextStrategy.rolling
  window_size : ℤ := 10
  _state : Option SessionState := none
deriving DecidableEq

/-- Embedding of SessionManager.start_session with an explicit session id
and wall clock (the Python fallback generates the id from the wall clock;
the claims only concern the resulting state shape). -/
def start_session (m : SessionManager) (sid : List Char) (now : ℚ) :
    SessionManager :=
  { m with _state := some { session_id := sid, start_time := now } }

/-- Embedding of SessionManager.end_session: if a state exists, stamp its
end_time and return it; the manager keeps referencing the same (now ended)
state object, exactly as the Python code does. -/
def end_session (m : SessionManager) (now : ℚ) :
    SessionManager × Option SessionState :=
  match m._state with
  | none => (m, none)
  | some st =>
      let st' := { st with end_time := some now }
      ({ m with _state := some st' }, some st')

/-- Embedding of SessionManager.add_user_message: raises RuntimeError
(modelled as Except.error) exactly when _state is None; otherwise appends
an Exchange with the current wall clock. -/
def add_user_message (m : SessionManager) (content : List Char) (now : ℚ) :
    Except String SessionManager :=
  match m._state with
  | none => Except.error "No active session"
  | some st =>
      let st' := { st with exchanges :=
        st.exchanges ++ [{ role := Role.user, content := content, timestamp := now }] }
      Except.ok { m with _state := some st' }

/-- Embedding of SessionManager.add_assistant_message (same pattern as
add_user_message with the assistant role). -/
def add_assistant_message (m : SessionManager) (content : List Char) (now : ℚ) :
    Except String SessionManager :=
  match m._state with
  | none => Except.error "No active session"
  | some st =>
      let st' := { st with exchanges :=
        st.exchanges ++ [{ role := Role.assistant, content := content, timestamp := now }] }
      Except.ok { m with _state := some st' }

/-- Embedding of SessionManager.add_tag (session.py lines 183-190): a
silent no-op when no state exists or the tag is already present. -/
def add_tag (m : SessionManager) (tag : List Char) : SessionManager :=
  match m._state with
  | none => m
  | some st =>
      if tag ∈ st.tags then m
      else { m with _state := some { st with tags := st.tags ++ [tag] } }

/-- Embedding of SessionManager.set_notes (session.py lines 192-199): a
silent no-op when no state exists. -/
def set_notes (m : SessionManager) (notes : List Char) : SessionManager :=
  match m._state with
  | none => m
  | some st => { m with _state := some { st with notes := notes } }

/-- Python list slicing lst[-w:] for an int w: for positive w the start
index is max(len - w, 0) (natural subtraction), for w = 0 the slice is
the whole list, and for negative w the start index is the positive
index -w. -/
def pySliceFromNeg {α : Type} (l : List α) (w : ℤ) : List α :=
  if 0 < w then l.drop (l.length - w.toNat) else l.drop (-w).toNat

/-- Embedding of SessionManager.get_context_messages (session.py lines
146-166): empty when no state; under the rolling strategy the Python
slice exchanges[-window_size:] is taken; each kept Exchange is projected
to its role and content. -/
def get_context_messages (m : SessionManager) : List (Role × List Char) :=
  match m._state with
  | none => []
  | some st =>
      let exchanges := st.exchanges
      let exchanges :=
        if m.context_strategy = ContextStrategy.rolling then
          pySliceFromNeg exchanges m.window_size
        else exchanges
      exchanges.map (fun e => (e.role, e.content))

/-! Embedding of src/audio/vad.py (energy-based VoiceActivityDetector). -/

/-- SpeechState enum from vad.py. -/
inductive SpeechState where
  | SILENCE
  | SPEECH_STARTED
  | SPEAKING
  | SPEECH_ENDED
deriving DecidableEq

/-- VADResult dataclass from vad.py. -/
structure VADResult where
  state : SpeechState
  is_speech : Bool
  speech_duration : ℚ := 0
  silence_duration : ℚ := 0
  audio_level : ℚ := 0
deriving DecidableEq

/-- VADConfig dataclass from vad.py.  The defaults are 0.02, 0.3 s,
1.5 s, sensitivity 2, 16000 Hz. -/
structure VADConfig where
  energy_threshold : ℚ := 1/50
  min_speech_duration : ℚ := 3/10
  speech_end_silence : ℚ := 3/2
  sensitivity : ℤ := 2
  sample_rate : ℕ := 16000
deriving DecidableEq

/-- Mutable state of a VoiceActivityDetector instance. -/
structure VADState where
  config : VADConfig
  _state : SpeechState := SpeechState.SILENCE
  _speech_start_time : Option ℚ := none
  _last_speech_time : ℚ := 0
  _last_process_time : ℚ := 0
  _noise_floor : ℚ := 1/100
  _noise_samples : ℕ := 0
deriving DecidableEq

/-- The sensitivity_multipliers dict of
VoiceActivityDetector._adjust_for_sensitivity, including the .get
default of 1.0 for keys outside 0-3. -/
def sensitivity_multipliers (s : ℤ) : ℚ :=
  if s = 0 then 2
  else if s = 1 then 3/2
  else if s = 2 then 1
  else if s = 3 then 3/5
  else 1

/-- Embedding of VoiceActivityDetector._adjust_for_sensitivity: multiply
the config energy threshold in place by the sensitivity multiplier. -/
def _adjust_for_sensitivity (c : VADConfig) : VADConfig :=
  { c with energy_threshold :=
      c.energy_threshold * sensitivity_multipliers c.sensitivity }

/-- Embedding of VoiceActivityDetector.__init__ (vad.py lines 58-69).
The Python constructor stores the passed-in config object and mutates its
energy_threshold in place; the mutated config is therefore observable
through the detector's config field.  The wall clock replaces
time.time() for _last_process_time. -/
def mkVoiceActivityDetector (c : VADConfig) (now : ℚ) : VADState :=
  { config := _adjust_for_sensitivity c
    _state := SpeechState.SILENCE
    _speech_start_time := none
    _last_speech_time := 0
    _last_process_time := now
    _noise_floor := 1/100
    _noise_samples := 0 }

/-- Embedding of VoiceActivityDetector._update_noise_floor: exponential
moving average, only while in SILENCE, with alpha 0.1 for the first 100
samples and 0.01 afterwards. -/
def _update_noise_floor (v : VADState) (energy : ℚ) : VADState :=
  if v._state = SpeechState.SILENCE then
    let alpha : ℚ := if v._noise_samples < 100 then 1/10 else 1/100
    { v with _noise_floor := (1 - alpha) * v._noise_floor + alpha * energy
             _noise_samples := v._noise_samples + 1 }
  else v

/-- The adaptive threshold computed inside process: the configured
threshold or three times the current noise floor, whichever is larger. -/
def effThreshold (v : VADState) : ℚ :=
  max v.config.energy_threshold (v._noise_floor * 3)

/-- Embedding of VoiceActivityDetector.process (vad.py lines 104-173).
The frame is abstracted by its RMS energy (the output of
_calculate_energy, which involves a square root and is the only
non-state-machine computation of process); the wall clock replaces
time.time().  The returned durations are computed from the post-update
timers exactly as in the source. -/
def process (v : VADState) (energy : ℚ) (now : ℚ) : VADState × VADResult :=
  let is_speech := effThreshold v < energy
  let v' :=
    match v._state with
    | SpeechState.SILENCE =>
        if is_speech then
          { v with _state := SpeechState.SPEECH_STARTED
                   _speech_start_time := some now
                   _last_speech_time := now }
        else _update_noise_floor v energy
    | SpeechState.SPEECH_STARTED =>
        if is_speech then
          let v1 := { v with _last_speech_time := now }
          if v.config.min_speech_duration ≤ now - v._speech_start_time.getD 0 then
            { v1 with _state := SpeechState.SPEAKING }
          else v1
        else
          if 1/5 < now - v._last_speech_time then
            { v with _state := SpeechState.SILENCE, _speech_start_time := none }
          else v
    | SpeechState.SPEAKING =>
        if is_speech then { v with _last_speech_time := now }
        else
          if v.config.speech_end_silence ≤ now - v._last_speech_time then
            { v with _state := SpeechState.SPEECH_ENDED }
          else v
    | SpeechState.SPEECH_ENDED =>
        { v with _state := SpeechState.SILENCE, _speech_start_time := none }
  let v' := { v' with _last_process_time := now }
  let speech_duration := match v'._speech_start_time with
    | some t => now - t
    | none => 0
  let silence_duration :=
    if ¬ is_speech ∧ 0 < v'._last_speech_time then now - v'._last_speech_time
    else 0
  (v', { state := v'._state
         is_speech := is_speech
         speech_duration := speech_duration
         silence_duration := silence_duration
         audio_level := energy })

/-- The state part of one process call. -/
def step (v : VADState) (energy : ℚ) (now : ℚ) : VADState :=
  (process v energy now).1

/-- Embedding of VoiceActivityDetector.reset (vad.py lines 175-186). -/
def reset (v : VADState) : VADState :=
  { v with _state := SpeechState.SILENCE
           _speech_start_time := none
           _last_speech_time := 0
           _noise_floor := 1/100
           _noise_samples := 0 }

/-- Fold process over a list of (energy, time) frames, keeping the state. -/
def processRun (v : VADState) : List (ℚ × ℚ) → VADState
  | [] => v
  | (e, t) :: rest => processRun (step v e t) rest

/-- The trace of detector states visited while processing a frame list. -/
def runStates (v : VADState) : List (ℚ × ℚ) → List SpeechState
  | [] => []
  | (e, t) :: rest =>
      let v' := step v e t
      v'._state :: runStates v' rest

/-- Every frame of the list is classified as speech at the moment it is
processed (its energy exceeds the adaptive threshold current at that
step). -/
def speechRun (v : VADState) : List (ℚ × ℚ) → Bool
  | [] => true
  | (e, t) :: rest => (decide (effThreshold v < e)) && speechRun (step v e t) rest

/-- Every frame of the list is classified as silence at the moment it is
processed. -/
def silentRun (v : VADState) : List (ℚ × ℚ) → Bool
  | [] => true
  | (e, t) :: rest => (decide (e ≤ effThreshold v)) && silentRun (step v e t) rest

/-! Concrete objects used by the witness and counterexample theorems. -/

/-- A fresh SessionManager on which no session has been started. -/
def mgr0 : SessionManager := {}

/-- A SessionManager whose session has been started and then ended. -/
def mgrEnded : SessionManager :=
  (end_session (start_session mgr0 "s".data 0) 1).1

/-- Exchanges numbered 1 to 7, alternating user and assistant roles. -/
def sevenExchanges : List Exchange :=
  [ { role := Role.user, content := "m1".data, timestamp := 1 }
  , { role := Role.assistant, content := "m2".data, timestamp := 2 }
  , { role := Role.user, content := "m3".data, timestamp := 3 }
  , { role := Role.assistant, content := "m4".data, timestamp := 4 }
  , { role := Role.user, content := "m5".data, timestamp := 5 }
  , { role := Role.assistant, content := "m6".data, timestamp := 6 }
  , { role := Role.user, content := "m7".data, timestamp := 7 } ]

/-- A rolling SessionManager with window size 3 holding seven exchanges. -/
def mgr7 : SessionManager :=
  { context_strategy := ContextStrategy.rolling
    window_size := 3
    _state := some { session_id := "s".data, start_time := 0, exchanges := sevenExchanges } }

/-- A rolling SessionManager with window size 0 holding one exchange. -/
def mgrWin0 : SessionManager :=
  { context_strategy := ContextStrategy.rolling
    window_size := 0
    _state := some { session_id := "s".data, start_time := 0
                     exchanges := [{ role := Role.user, content := "hi".data, timestamp := 1 }] } }

/-- A PacingController holding in silence mode since time 0. -/
def pacSilent : PacingController :=
  { config := {}
    _state := ConversationState.SILENT_HOLD
    _last_speech_end := 0
    _last_response_time := 0
    _silence_mode_start := some 0 }

/-- A PacingController in normal mode with a recorded speech end at
time 1/2 and last response at time 0. -/
def pacNormal : PacingController :=
  { config := {}
    _state := ConversationState.PROCESSING
    _last_speech_end := 1/2
    _last_response_time := 0
    _silence_mode_start := none }

/-- A detector with default configuration sitting in SILENCE. -/
def vadSilence : VADState := { config := {} }

/-- A detector in SPEECH_STARTED with speech-start time 0. -/
def vadStarted : VADState :=
  { config := {}
    _state := SpeechState.SPEECH_STARTED
    _speech_start_time := some 0
    _last_speech_time := 0 }

/-- A detector in SPEAKING with last speech at time 0. -/
def vadSpeaking : VADState :=
  { config := {}
    _state := SpeechState.SPEAKING
    _speech_start_time := some 0
    _last_speech_time := 0 }

/-- A detector in the transient SPEECH_ENDED state. -/
def vadEnded : VADState :=
  { config := {}
    _state := SpeechState.SPEECH_ENDED
    _speech_start_time := some 0
    _last_speech_time := 1 }

/-- A detector whose noise floor and sample count have drifted away from
their initial values after adaptation. -/
def vadDrifted : VADState :=
  { config := {}
    _state := SpeechState.SPEECH_STARTED
    _speech_start_time := some 7
    _last_speech_time := 9
    _last_process_time := 9
    _noise_floor := 4/10
    _noise_samples := 250 }

/-- A VADConfig with zero energy threshold and sensitivity 0 (whose
multiplier is 2.0, not 1.0). -/
def cfgZeroThreshold : VADConfig :=
  { energy_threshold := 0, sensitivity := 0 }

/-! Theorems.  Shared helper lemmas come first, then one theorem per
claim (with witnesses and counterexamples where required). -/

/-- A list is a Boolean prefix of itself followed by anything. -/
theorem isPrefixOf_append_self (l t : List Char) :
    List.isPrefixOf l (l ++ t) = true := by
  rw [List.isPrefixOf_iff_prefix]
  exact List.prefix_append l t

/-- The marker test of parse_hold_signal fails on any text starting with
the six marker characters followed by a question mark instead of the
closing bracket. -/
theorem hold_marker_test_fails_on_confirm (t : List Char) :
    List.isPrefixOf "[HOLD]".data ("[HOLD?]".data ++ t) = false := rfl

/-- C6: parse_hold_signal recognizes a leading hold marker
case-insensitively; when the stripped input is the marker (in any letter
case) followed by remaining text, it returns True with the remainder
stripped of the following whitespace; when the uppercased stripped input
does not start with the marker it returns False with the stripped input
unchanged. -/
theorem parse_hold_signal_spec :
    (∀ s m r : List Char, pyStrip s = m ++ r → pyUpper m = "[HOLD]".data →
       parse_hold_signal s = (true, pyStrip r))
  ∧ (∀ s : List Char,
       List.isPrefixOf "[HOLD]".data (pyUpper (pyStrip s)) = false →
       parse_hold_signal s = (false, pyStrip s)) := by
  constructor
  · intro s m r hsplit hm
    have hlen : m.length = 6 := by
      have h := congrArg List.length hm
      simpa [pyUpper] using h
    have hpre : List.isPrefixOf "[HOLD]".data (pyUpper (pyStrip s)) = true := by
      rw [hsplit]
      show List.isPrefixOf "[HOLD]".data (List.map Char.toUpper (m ++ r)) = true
      rw [List.map_append]
      show List.isPrefixOf "[HOLD]".data (pyUpper m ++ pyUpper r) = true
      rw [hm]
      exact isPrefixOf_append_self _ _
    have hdrop : (pyStrip s).drop 6 = r := by
      rw [hsplit]
      exact List.drop_left' hlen
    simp [parse_hold_signal, hpre, hdrop]
  · intro s h
    simp [parse_hold_signal, h]

/-- C6 witness: the concrete examples from the specification. -/
theorem parse_hold_signal_spec_witness :
    parse_hold_signal "[hold] I\x27ll be right here.".data
      = (true, "I\x27ll be right here.".data)
  ∧ parse_hold_signal "What\x27s that like?".data
      = (false, "What\x27s that like?".data) := by
  constructor
  · exact parse_hold_signal_spec.1 "[hold] I\x27ll be right here.".data
      "[hold]".data " I\x27ll be right here.".data (by decide) (by decide)
  · exact parse_hold_signal_spec.2 "What\x27s that like?".data (by decide)

/-- C1 counterexample: the code does not recognize the confirm marker.
On the specification example it takes the no-marker path, returning
False with the trimmed text unchanged, not the remainder after the
marker. -/
theorem parse_hold_signal_confirm_cex :
    parse_hold_signal "[HOLD?] Want me to hold space?".data
      = (false, "[HOLD?] Want me to hold space?".data)
  ∧ (parse_hold_signal "[HOLD?] Want me to hold space?".data).2
      ≠ "Want me to hold space?".data := by
  constructor
  · rfl
  · decide

/-- C1 amended: for every input string whose trimmed form begins
(case-insensitively) with the confirm marker, parse_hold_signal reports
no hold signal (False) and returns the trimmed input unchanged; there is
no confirm signal in the code. -/
theorem parse_hold_signal_confirm_unrecognized (s rest : List Char)
    (h : pyUpper (pyStrip s) = "[HOLD?]".data ++ rest) :
    parse_hold_signal s = (false, pyStrip s) := by
  have hpre : List.isPrefixOf "[HOLD]".data (pyUpper (pyStrip s)) = false := by
    rw [h]
    exact hold_marker_test_fails_on_confirm rest
  simp [parse_hold_signal, hpre]

/-- C1 amended witness: the specification example evaluated through the
amended theorem. -/
theorem parse_hold_signal_confirm_unrecognized_witness :
    parse_hold_signal "[HOLD?] Want me to hold space?".data
      = (false, "[HOLD?] Want me to hold space?".data) := by
  exact parse_hold_signal_confirm_unrecognized
    "[HOLD?] Want me to hold space?".data
    " WANT ME TO HOLD SPACE?".data (by decide)

/-- C3: should_respond never returns RESPOND in silence mode — there it
returns CHECK_IN once the hold duration reaches extended_silence_sec and
HOLD otherwise; out of silence mode it returns RESPOND once a recorded
speech end (sentinel 0 means none) is at least response_delay_ms/1000
old, else CHECK_IN once the last response is at least
extended_silence_sec old, else WAIT. -/
theorem should_respond_spec (p : PacingController) (now : ℚ) :
    (∀ start : ℚ, p._silence_mode_start = some start →
       should_respond p now =
         (if (p.config.extended_silence_sec : ℚ) ≤ now - start
          then TurnDecision.CHECK_IN else TurnDecision.HOLD)
     ∧ should_respond p now ≠ TurnDecision.RESPOND)
  ∧ (p._silence_mode_start = none →
       should_respond p now =
         (if 0 < p._last_speech_end ∧
             (p.config.response_delay_ms : ℚ) / 1000 ≤ now - p._last_speech_end
          then TurnDecision.RESPOND
          else if (p.config.extended_silence_sec : ℚ) ≤ now - p._last_response_time
          then TurnDecision.CHECK_IN
          else TurnDecision.WAIT)) := by
  constructor
  · intro start h
    constructor
    · simp [should_respond, h]
    · simp only [should_respond, h]
      split <;> decide
  · intro h
    simp [should_respond, h]

/-- C3 witness: concrete controllers with the default configuration.  In
silence mode entered at time 0 the controller checks in at time 100,
holds at time 30, and never responds even at a huge elapsed time; in
normal mode with speech ended at time 1/2, time 3 is past the 2-second
delay, so it responds. -/
theorem should_respond_spec_witness :
    should_respond pacSilent 100 = TurnDecision.CHECK_IN
  ∧ should_respond pacSilent 30 = TurnDecision.HOLD
  ∧ should_respond pacSilent 1000000 ≠ TurnDecision.RESPOND
  ∧ should_respond pacNormal 3 = TurnDecision.RESPOND := by
  refine ⟨?_, ?_, ?_, ?_⟩
  · have h := ((should_respond_spec pacSilent 100).1 0 rfl).1
    rw [h]; norm_num [pacSilent]
  · have h := ((should_respond_spec pacSilent 30).1 0 rfl).1
    rw [h]; norm_num [pacSilent]
  · exact ((should_respond_spec pacSilent 1000000).1 0 rfl).2
  · have h := (should_respond_spec pacNormal 3).2 rfl
    rw [h]; norm_num [pacNormal]

/-- C4: on_transcription always returns RESPOND, for every controller
state and every text (including whitespace-only text), and the resulting
controller is never in silence mode. -/
theorem on_transcription_spec (p : PacingController) (text : List Char) :
    (on_transcription p text).2 = TurnDecision.RESPOND
  ∧ is_in_silence_mode (on_transcription p text).1 = false
  ∧ (on_transcription p text).1._silence_mode_start = none := by
  cases h : p._silence_mode_start with
  | none => simp [on_transcription, h, is_in_silence_mode]
  | some s => simp [on_transcription, h, is_in_silence_mode, exit_silence_mode]

/-- C2 counterexample: after end_session the manager still references
the (ended) session state, so add_user_message succeeds and appends
instead of failing; and with no session at all, add_tag and set_notes
silently return the manager unchanged instead of failing. -/
theorem session_mutation_cex :
    mgrEnded._state =
      some { session_id := "s".data, start_time := 0, end_time := some 1 }
  ∧ (add_user_message mgrEnded "x".data 2).isOk = true
  ∧ add_tag mgr0 "t".data = mgr0
  ∧ set_notes mgr0 "n".data = mgr0 := by
  refine ⟨rfl, rfl, rfl, rfl⟩

/-- C2 amended: add_user_message and add_assistant_message fail with the
"No active session" error exactly when no session object exists (none
was ever started); once a session exists they succeed even after
end_session; add_tag and set_notes never fail, silently no-op'ing when
no session exists. -/
theorem session_mutation_spec (m : SessionManager) (c : List Char) (now : ℚ) :
    ((add_user_message m c now).isOk = m._state.isSome)
  ∧ ((add_assistant_message m c now).isOk = m._state.isSome)
  ∧ (m._state = none →
       add_user_message m c now = Except.error "No active session"
     ∧ add_assistant_message m c now = Except.error "No active session"
     ∧ add_tag m c = m ∧ set_notes m c = m) := by
  refine ⟨?_, ?_, ?_⟩
  · cases h : m._state <;>
      simp [add_user_message, h, Except.isOk, Except.toBool]
  · cases h : m._state <;>
      simp [add_assistant_message, h, Except.isOk, Except.toBool]
  · intro h
    refine ⟨?_, ?_, ?_, ?_⟩ <;>
      simp [add_user_message, add_assistant_message, add_tag, set_notes, h]

/-- C2 amended witness: the amended theorem applied to the fresh
manager, which has no session. -/
theorem session_mutation_spec_witness :
    add_user_message mgr0 "x".data 0 = Except.error "No active session"
  ∧ add_assistant_message mgr0 "y".data 0 = Except.error "No active session"
  ∧ add_tag mgr0 "t2".data = mgr0 ∧ set_notes mgr0 "n2".data = mgr0 := by
  exact (session_mutation_spec mgr0 "x".data 0).2.2 rfl |>.imp id
    (fun h => ⟨(session_mutation_spec mgr0 "y".data 0).2.2 rfl |>.2.1,
               (session_mutation_spec mgr0 "t2".data 0).2.2 rfl |>.2.2.1,
               (session_mutation_spec mgr0 "n2".data 0).2.2 rfl |>.2.2.2⟩)

/-- C8: reset restores the adaptive noise floor to its initial default
0.01, resets the adaptation sample count to 0, clears the speech-start
and last-speech timers, and returns the machine to SILENCE, for every
prior detector state. -/
theorem reset_spec (v : VADState) :
    (reset v)._noise_floor = 1/100
  ∧ (reset v)._noise_samples = 0
  ∧ (reset v)._speech_start_time = none
  ∧ (reset v)._last_speech_time = 0
  ∧ (reset v)._state = SpeechState.SILENCE :=
  ⟨rfl, rfl, rfl, rfl, rfl⟩

/-- C7 counterexample: with the rolling strategy and window_size 0, the
Python slice exchanges[-0:] is the whole list, so a manager holding one
exchange returns one message — more than its window size. -/
theorem get_context_messages_win0_cex :
    mgrWin0.window_size = 0
  ∧ mgrWin0.context_strategy = ContextStrategy.rolling
  ∧ (get_context_messages mgrWin0).length = 1 :=
  ⟨rfl, rfl, rfl⟩

/-- C7 amended: under the rolling strategy with a positive window_size,
get_context_messages returns exactly the last min(window_size, length)
stored exchanges — a suffix of the chronological role/content projection
of the stored list, hence in original order with role and content
unaltered and never more than window_size entries.  (The embedded
function reads the manager without modifying it, so the stored list is
not mutated and repeated calls agree; for window_size = 0 the slice
returns the full list instead.) -/
theorem get_context_messages_rolling_spec (m : SessionManager)
    (st : SessionState) (hs : m._state = some st)
    (hr : m.context_strategy = ContextStrategy.rolling)
    (hw : 1 ≤ m.window_size) :
    (get_context_messages m).length
      = min m.window_size.toNat st.exchanges.length
  ∧ get_context_messages m <:+ st.exchanges.map (fun e => (e.role, e.content)) := by
  have h0 : 0 < m.window_size := hw
  have heq : get_context_messages m
      = (st.exchanges.drop (st.exchanges.length - m.window_size.toNat)).map
          (fun e => (e.role, e.content)) := by
    simp [get_context_messages, hs, hr, pySliceFromNeg, h0]
  rw [heq]
  constructor
  · rw [List.length_map, List.length_drop]
    omega
  · exact (List.drop_suffix _ _).map _

/-- C7 amended witness: window_size 3 over seven stored exchanges yields
exactly the last three, in order, unaltered. -/
theorem get_context_messages_rolling_spec_witness :
    (get_context_messages mgr7).length = 3
  ∧ get_context_messages mgr7 <:+ sevenExchanges.map (fun e => (e.role, e.content))
  ∧ get_context_messages mgr7 =
      [(Role.user, "m5".data), (Role.assistant, "m6".data), (Role.user, "m7".data)] := by
  have h := get_context_messages_rolling_spec mgr7 _ rfl rfl (by decide)
  exact ⟨h.1.trans (by decide), h.2, by decide⟩

/-- The sensitivity multiplier is never zero. -/
theorem sensitivity_multipliers_ne_zero (s : ℤ) :
    sensitivity_multipliers s ≠ 0 := by
  unfold sensitivity_multipliers
  repeat' split
  all_goals norm_num

/-- C10 counterexample: for a config with zero energy threshold and
sensitivity 0 (multiplier 2.0, not 1.0), the detector built from the
first detector's stored config has the same effective threshold as the
first (both zero), so the two detectors do not differ. -/
theorem mkVoiceActivityDetector_zero_threshold_cex :
    sensitivity_multipliers cfgZeroThreshold.sensitivity ≠ 1
  ∧ (mkVoiceActivityDetector
        (mkVoiceActivityDetector cfgZeroThreshold 0).config 0).config.energy_threshold
      = (mkVoiceActivityDetector cfgZeroThreshold 0).config.energy_threshold := by
  constructor
  · norm_num [cfgZeroThreshold, sensitivity_multipliers]
  · norm_num [cfgZeroThreshold, mkVoiceActivityDetector, _adjust_for_sensitivity]

/-- C10 amended: the constructor stores the passed-in config with its
energy_threshold multiplied in place by the sensitivity multiplier
(0 maps to 2.0, 1 to 1.5, 2 to 1.0, 3 to 0.6, anything else to 1.0), so
constructing a second detector from the first detector's stored config
applies the multiplier twice; when the multiplier is not 1.0 and the
original threshold is nonzero, the two detectors' thresholds differ. -/
theorem mkVoiceActivityDetector_reinit_spec (c : VADConfig) (n1 n2 : ℚ)
    (hm : sensitivity_multipliers c.sensitivity ≠ 1)
    (he : c.energy_threshold ≠ 0) :
    (mkVoiceActivityDetector
        (mkVoiceActivityDetector c n1).config n2).config.energy_threshold
      = c.energy_threshold * sensitivity_multipliers c.sensitivity
          * sensitivity_multipliers c.sensitivity
  ∧ (mkVoiceActivityDetector
        (mkVoiceActivityDetector c n1).config n2).config.energy_threshold
      ≠ (mkVoiceActivityDetector c n1).config.energy_threshold := by
  constructor
  · rfl
  · show c.energy_threshold * sensitivity_multipliers c.sensitivity
        * sensitivity_multipliers c.sensitivity
      ≠ c.energy_threshold * sensitivity_multipliers c.sensitivity
    intro h
    exact hm (mul_left_cancel₀
      (mul_ne_zero he (sensitivity_multipliers_ne_zero c.sensitivity))
      (h.trans (mul_one _).symm))

/-- C10 amended witness: for the default config with sensitivity 0 the
threshold 0.02 becomes 0.04 in the first detector and 0.08 in a detector
rebuilt from its config. -/
theorem mkVoiceActivityDetector_reinit_spec_witness :
    (mkVoiceActivityDetector
        (mkVoiceActivityDetector { sensitivity := 0 } 0).config 0).config.energy_threshold
      = 2/25
  ∧ (mkVoiceActivityDetector
        (mkVoiceActivityDetector { sensitivity := 0 } 0).config 0).config.energy_threshold
      ≠ (mkVoiceActivityDetector { sensitivity := 0 } 0).config.energy_threshold := by
  have h := mkVoiceActivityDetector_reinit_spec { sensitivity := 0 } 0 0
    (by norm_num [sensitivity_multipliers]) (by norm_num)
  exact ⟨h.1.trans (by norm_num [sensitivity_multipliers]), h.2⟩

/-! Single-step facts about process, one per (state, classification)
case of the source state machine. -/

/-- In SILENCE, a speech-classified frame moves the detector to
SPEECH_STARTED and records both timers at the frame time. -/
theorem step_silence_speech (v : VADState) (e t : ℚ)
    (hs : v._state = SpeechState.SILENCE) (he : effThreshold v < e) :
    (step v e t)._state = SpeechState.SPEECH_STARTED
  ∧ (step v e t)._speech_start_time = some t
  ∧ (step v e t)._last_speech_time = t
  ∧ (step v e t).config = v.config
  ∧ (step v e t)._noise_floor = v._noise_floor := by
  refine ⟨?_, ?_, ?_, ?_, ?_⟩ <;> simp [step, process, hs, he]

/-- In SILENCE, a silence-classified frame keeps the detector in SILENCE
and leaves the last-speech timer unchanged (only the noise floor and
sample count move). -/
theorem step_silence_silence (v : VADState) (e t : ℚ)
    (hs : v._state = SpeechState.SILENCE) (hns : ¬ effThreshold v < e) :
    (step v e t)._state = SpeechState.SILENCE
  ∧ (step v e t)._last_speech_time = v._last_speech_time
  ∧ (step v e t).config = v.config := by
  refine ⟨?_, ?_, ?_⟩ <;> simp [step, process, _update_noise_floor, hs, hns]

/-- In SPEECH_STARTED, a speech-classified frame promotes to SPEAKING
exactly when the elapsed time since the recorded speech start reaches
min_speech_duration; the speech-start timer, config and noise floor are
unchanged. -/
theorem step_started_speech (v : VADState) (e t : ℚ)
    (hs : v._state = SpeechState.SPEECH_STARTED) (he : effThreshold v < e) :
    (step v e t)._state =
      (if v.config.min_speech_duration ≤ t - v._speech_start_time.getD 0
       then SpeechState.SPEAKING else SpeechState.SPEECH_STARTED)
  ∧ (step v e t)._speech_start_time = v._speech_start_time
  ∧ (step v e t).config = v.config
  ∧ (step v e t)._noise_floor = v._noise_floor := by
  refine ⟨?_, ?_, ?_, ?_⟩ <;> simp [step, process, hs, he] <;> split <;> first | rfl | exact hs

/-- In SPEECH_STARTED, a silence-classified frame reverts to SILENCE
exactly when the silence since the last speech exceeds the 0.2 s
noise-reject window, and otherwise stays; the last-speech timer, config
and noise floor are unchanged. -/
theorem step_started_silence (v : VADState) (e t : ℚ)
    (hs : v._state = SpeechState.SPEECH_STARTED) (hns : ¬ effThreshold v < e) :
    (step v e t)._state =
      (if 1/5 < t - v._last_speech_time
       then SpeechState.SILENCE else SpeechState.SPEECH_STARTED)
  ∧ (step v e t)._last_speech_time = v._last_speech_time
  ∧ (step v e t).config = v.config
  ∧ (step v e t)._noise_floor = v._noise_floor := by
  refine ⟨?_, ?_, ?_, ?_⟩ <;> simp [step, process, hs, hns] <;> split <;> first | rfl | exact hs

/-- In SPEAKING, a speech-classified frame keeps the detector SPEAKING
and refreshes the last-speech timer. -/
theorem step_speaking_speech (v : VADState) (e t : ℚ)
    (hs : v._state = SpeechState.SPEAKING) (he : effThreshold v < e) :
    (step v e t)._state = SpeechState.SPEAKING
  ∧ (step v e t)._last_speech_time = t
  ∧ (step v e t).config = v.config
  ∧ (step v e t)._noise_floor = v._noise_floor := by
  refine ⟨?_, ?_, ?_, ?_⟩ <;> simp [step, process, hs, he]

/-- In SPEAKING, a silence-classified frame moves to SPEECH_ENDED
exactly when the silence since the last speech reaches
speech_end_silence; the last-speech timer, config and noise floor are
unchanged. -/
theorem step_speaking_silence (v : VADState) (e t : ℚ)
    (hs : v._state = SpeechState.SPEAKING) (hns : ¬ effThreshold v < e) :
    (step v e t)._state =
      (if v.config.speech_end_silence ≤ t - v._last_speech_time
       then SpeechState.SPEECH_ENDED else SpeechState.SPEAKING)
  ∧ (step v e t)._last_speech_time = v._last_speech_time
  ∧ (step v e t).config = v.config
  ∧ (step v e t)._noise_floor = v._noise_floor := by
  refine ⟨?_, ?_, ?_, ?_⟩ <;> simp [step, process, hs, hns] <;> split <;> first | rfl | exact hs

/-- From the transient SPEECH_ENDED state, the very next call falls back
to SILENCE unconditionally and discards the speech-start timer. -/
theorem step_ended (v : VADState) (e t : ℚ)
    (hs : v._state = SpeechState.SPEECH_ENDED) :
    (step v e t)._state = SpeechState.SILENCE
  ∧ (step v e t)._speech_start_time = none := by
  refine ⟨?_, ?_⟩ <;> simp [step, process, hs]

/-- A run of speech-classified frames starting from SPEECH_STARTED (with
recorded start t0) or from SPEAKING ends in SPEAKING as soon as some
frame — here the last — arrives at least min_speech_duration after
t0. -/
theorem run_speech_reaches_speaking (frames : List (ℚ × ℚ)) :
    ∀ (v : VADState) (t0 eL tL : ℚ),
      ((v._state = SpeechState.SPEECH_STARTED ∧ v._speech_start_time = some t0)
        ∨ v._state = SpeechState.SPEAKING) →
      speechRun v frames = true →
      frames.getLast? = some (eL, tL) →
      v.config.min_speech_duration ≤ tL - t0 →
      (processRun v frames)._state = SpeechState.SPEAKING := by
  induction frames with
  | nil =>
    intro v t0 eL tL hQ hrun hlast hmin
    simp at hlast
  | cons head rest ih =>
    obtain ⟨e, t⟩ := head
    intro v t0 eL tL hQ hrun hlast hmin
    simp only [speechRun, Bool.and_eq_true, decide_eq_true_eq] at hrun
    obtain ⟨hsp, hrun'⟩ := hrun
    cases rest with
    | nil =>
      simp only [List.getLast?_singleton, Option.some.injEq, Prod.mk.injEq] at hlast
      simp only [processRun]
      rcases hQ with ⟨hs, hstart⟩ | hs
      · have h1 := step_started_speech v e t hs hsp
        have hm : v.config.min_speech_duration ≤ t - t0 := by
          rw [hlast.2]
          exact hmin
        rw [h1.1, hstart, Option.getD_some, if_pos hm]
      · exact (step_speaking_speech v e t hs hsp).1
    | cons r rs =>
      rw [List.getLast?_cons_cons] at hlast
      simp only [processRun]
      rcases hQ with ⟨hs, hstart⟩ | hs
      · have h1 := step_started_speech v e t hs hsp
        refine ih (step v e t) t0 eL tL ?_ hrun' hlast ?_
        · by_cases hd : v.config.min_speech_duration ≤ t - v._speech_start_time.getD 0
          · right
            rw [h1.1, if_pos hd]
          · left
            exact ⟨by rw [h1.1, if_neg hd], by rw [h1.2.1, hstart]⟩
        · rw [h1.2.2.1]
          exact hmin
      · have h1 := step_speaking_speech v e t hs hsp
        refine ih (step v e t) t0 eL tL (Or.inr h1.1) hrun' hlast ?_
        rw [h1.2.2.1]
        exact hmin

/-- A run of silence-classified frames starting in SPEAKING, in which
only the last frame reaches the speech_end_silence threshold relative to
the recorded last-speech time L, ends in SPEECH_ENDED. -/
theorem run_silence_reaches_ended (frames : List (ℚ × ℚ)) :
    ∀ (v : VADState) (L eL tL : ℚ),
      v._state = SpeechState.SPEAKING →
      v._last_speech_time = L →
      silentRun v frames = true →
      (∀ p ∈ frames.dropLast, p.2 - L < v.config.speech_end_silence) →
      frames.getLast? = some (eL, tL) →
      v.config.speech_end_silence ≤ tL - L →
      (processRun v frames)._state = SpeechState.SPEECH_ENDED := by
  induction frames with
  | nil =>
    intro v L eL tL hs hL hrun hdrop hlast hge
    simp at hlast
  | cons head rest ih =>
    obtain ⟨e, t⟩ := head
    intro v L eL tL hs hL hrun hdrop hlast hge
    simp only [silentRun, Bool.and_eq_true, decide_eq_true_eq] at hrun
    obtain ⟨hsil, hrun'⟩ := hrun
    have hns : ¬ effThreshold v < e := not_lt.mpr hsil
    have h1 := step_speaking_silence v e t hs hns
    cases rest with
    | nil =>
      simp only [List.getLast?_singleton, Option.some.injEq, Prod.mk.injEq] at hlast
      simp only [processRun]
      have hg : v.config.speech_end_silence ≤ t - v._last_speech_time := by
        rw [hL, hlast.2]
        exact hge
      rw [h1.1, if_pos hg]
    | cons r rs =>
      rw [List.getLast?_cons_cons] at hlast
      simp only [processRun]
      have hlt : t - L < v.config.speech_end_silence := by
        refine hdrop (e, t) ?_
        rw [List.dropLast_cons₂]
        exact List.mem_cons_self _ _
      have hstay : (step v e t)._state = SpeechState.SPEAKING := by
        rw [h1.1, hL]
        exact if_neg (not_le.mpr hlt)
      refine ih (step v e t) L eL tL hstay ?_ hrun' ?_ hlast ?_
      · rw [h1.2.1, hL]
      · intro p hp
        rw [h1.2.2.1]
        refine hdrop p ?_
        rw [List.dropLast_cons₂]
        exact List.mem_cons_of_mem _ hp
      · rw [h1.2.2.1]
        exact hge

/-- From SPEECH_STARTED with last-speech time t1, or from SILENCE, a run
of silence-classified frames never reaches SPEAKING, and ends in SILENCE
as soon as the last frame falls more than the 0.2 s noise-reject window
after t1. -/
theorem run_noise_reject (frames : List (ℚ × ℚ)) :
    ∀ (v : VADState) (t1 : ℚ),
      ((v._state = SpeechState.SPEECH_STARTED ∧ v._last_speech_time = t1)
        ∨ v._state = SpeechState.SILENCE) →
      silentRun v frames = true →
      SpeechState.SPEAKING ∉ runStates v frames
    ∧ (∀ eL tL : ℚ, frames.getLast? = some (eL, tL) → 1/5 < tL - t1 →
        (processRun v frames)._state = SpeechState.SILENCE) := by
  induction frames with
  | nil =>
    intro v t1 hQ hrun
    constructor
    · simp [runStates]
    · intro eL tL hlast
      simp at hlast
  | cons head rest ih =>
    obtain ⟨e, t⟩ := head
    intro v t1 hQ hrun
    simp only [silentRun, Bool.and_eq_true, decide_eq_true_eq] at hrun
    obtain ⟨hsil, hrun'⟩ := hrun
    have hns : ¬ effThreshold v < e := not_lt.mpr hsil
    have hQ' : ((step v e t)._state = SpeechState.SPEECH_STARTED
          ∧ (step v e t)._last_speech_time = t1)
        ∨ (step v e t)._state = SpeechState.SILENCE := by
      rcases hQ with ⟨hs, hl⟩ | hs
      · have h1 := step_started_silence v e t hs hns
        by_cases hrev : 1/5 < t - v._last_speech_time
        · right
          rw [h1.1, if_pos hrev]
        · left
          exact ⟨by rw [h1.1, if_neg hrev], by rw [h1.2.1, hl]⟩
      · right
        exact (step_silence_silence v e t hs hns).1
    have hcross : 1/5 < t - t1 → (step v e t)._state = SpeechState.SILENCE := by
      intro hgt
      rcases hQ with ⟨hs, hl⟩ | hs
      · have h1 := step_started_silence v e t hs hns
        rw [h1.1, hl]
        exact if_pos hgt
      · exact (step_silence_silence v e t hs hns).1
    have hnotspk : (step v e t)._state ≠ SpeechState.SPEAKING := by
      rcases hQ' with ⟨hs, _⟩ | hs <;> rw [hs] <;> decide
    have hih := ih (step v e t) t1 hQ' hrun'
    cases rest with
    | nil =>
      constructor
      · simp only [runStates, List.mem_cons, List.not_mem_nil, or_false]
        exact fun h => hnotspk h.symm
      · intro eL tL hlast hgt
        simp only [List.getLast?_singleton, Option.some.injEq, Prod.mk.injEq] at hlast
        simp only [processRun]
        refine hcross ?_
        rw [hlast.2]
        exact hgt
    | cons r rs =>
      constructor
      · intro hmem
        have hmem' : SpeechState.SPEAKING = (step v e t)._state
            ∨ SpeechState.SPEAKING ∈ runStates (step v e t) (r :: rs) := by
          simpa only [runStates, List.mem_cons] using hmem
        rcases hmem' with h | h
        · exact hnotspk h.symm
        · exact hih.1 h
      · intro eL tL hlast hgt
        rw [List.getLast?_cons_cons] at hlast
        simp only [processRun]
        exact hih.2 eL tL hlast hgt

/-- C5: for every configuration, a continuous run of speech-classified
frames from SPEECH_STARTED whose last frame arrives at least
min_speech_duration after the recorded speech start ends in SPEAKING; a
run of silence-classified frames from SPEAKING whose last frame first
reaches speech_end_silence after the recorded last-speech time ends in
SPEECH_ENDED; and from SPEECH_ENDED the very next process call
unconditionally returns the machine to SILENCE. -/
theorem vad_progression_spec :
    (∀ (v : VADState) (frames : List (ℚ × ℚ)) (t0 eL tL : ℚ),
       v._state = SpeechState.SPEECH_STARTED →
       v._speech_start_time = some t0 →
       speechRun v frames = true →
       frames.getLast? = some (eL, tL) →
       v.config.min_speech_duration ≤ tL - t0 →
       (processRun v frames)._state = SpeechState.SPEAKING)
  ∧ (∀ (v : VADState) (frames : List (ℚ × ℚ)) (L eL tL : ℚ),
       v._state = SpeechState.SPEAKING →
       v._last_speech_time = L →
       silentRun v frames = true →
       (∀ p ∈ frames.dropLast, p.2 - L < v.config.speech_end_silence) →
       frames.getLast? = some (eL, tL) →
       v.config.speech_end_silence ≤ tL - L →
       (processRun v frames)._state = SpeechState.SPEECH_ENDED)
  ∧ (∀ (v : VADState) (e t : ℚ),
       v._state = SpeechState.SPEECH_ENDED →
       (step v e t)._state = SpeechState.SILENCE) := by
  refine ⟨?_, ?_, ?_⟩
  · intro v frames t0 eL tL hs hstart hrun hlast hmin
    exact run_speech_reaches_speaking frames v t0 eL tL
      (Or.inl ⟨hs, hstart⟩) hrun hlast hmin
  · intro v frames L eL tL hs hL hrun hdrop hlast hge
    exact run_silence_reaches_ended frames v L eL tL hs hL hrun hdrop hlast hge
  · intro v e t hs
    exact (step_ended v e t hs).1

/-- C5 witness: with the default configuration, a detector started at
time 0 becomes SPEAKING on a pair of loud frames ending at time 1/2
(past the 0.3 s minimum); a SPEAKING detector with last speech at 0
becomes SPEECH_ENDED on a quiet frame at time 2 (past the 1.5 s
end-silence); and a SPEECH_ENDED detector falls back to SILENCE on the
next call. -/
theorem vad_progression_spec_witness :
    (processRun vadStarted [((1 : ℚ), 1/10), (1, 1/2)])._state = SpeechState.SPEAKING
  ∧ (processRun vadSpeaking [((0 : ℚ), 2)])._state = SpeechState.SPEECH_ENDED
  ∧ (step vadEnded 0 3)._state = SpeechState.SILENCE := by
  refine ⟨?_, ?_, ?_⟩
  · exact vad_progression_spec.1 vadStarted [((1 : ℚ), 1/10), (1, 1/2)] 0 1 (1/2)
      rfl rfl
      (by norm_num [speechRun, step, process, effThreshold, _update_noise_floor,
        max_def, vadStarted])
      rfl (by norm_num [vadStarted])
  · exact vad_progression_spec.2.1 vadSpeaking [((0 : ℚ), 2)] 0 0 2
      rfl rfl
      (by norm_num [silentRun, step, process, effThreshold, _update_noise_floor,
        max_def, vadSpeaking])
      (by simp) rfl (by norm_num [vadSpeaking])
  · exact vad_progression_spec.2.2 vadEnded 0 3 rfl

/-- C9: from SILENCE, a single speech-classified frame at time t1 moves
the detector to SPEECH_STARTED, and a following run of silence-classified
frames whose last frame falls more than the 0.2 s noise-reject window
after t1 returns the detector to SILENCE without the machine ever
reaching SPEAKING. -/
theorem vad_false_positive_spec (v : VADState) (e1 t1 : ℚ)
    (frames : List (ℚ × ℚ)) (eL tL : ℚ)
    (hs : v._state = SpeechState.SILENCE)
    (he : effThreshold v < e1)
    (hrun : silentRun (step v e1 t1) frames = true)
    (hlast : frames.getLast? = some (eL, tL))
    (hgt : 1/5 < tL - t1) :
    (step v e1 t1)._state = SpeechState.SPEECH_STARTED
  ∧ SpeechState.SPEAKING ∉ runStates (step v e1 t1) frames
  ∧ (processRun (step v e1 t1) frames)._state = SpeechState.SILENCE := by
  have h0 := step_silence_speech v e1 t1 hs he
  have h := run_noise_reject frames (step v e1 t1) t1
    (Or.inl ⟨h0.1, h0.2.2.1⟩) hrun
  exact ⟨h0.1, h.1, h.2 eL tL hlast hgt⟩

/-- C9 witness: with the default configuration, a single loud frame at
time 0 followed by quiet frames at times 1/10 and 3/10 (the latter past
the 0.2 s window) leaves the detector back in SILENCE, never having been
SPEAKING. -/
theorem vad_false_positive_spec_witness :
    (step vadSilence 1 0)._state = SpeechState.SPEECH_STARTED
  ∧ SpeechState.SPEAKING ∉ runStates (step vadSilence 1 0) [((0 : ℚ), 1/10), (0, 3/10)]
  ∧ (processRun (step vadSilence 1 0) [((0 : ℚ), 1/10), (0, 3/10)])._state
      = SpeechState.SILENCE := by
  exact vad_false_positive_spec vadSilence 1 0 [((0 : ℚ), 1/10), (0, 3/10)] 0 (3/10)
    rfl (by norm_num [vadSilence, effThreshold])
    (by norm_num [silentRun, step, process, effThreshold, _update_noise_floor,
      max_def, vadSilence])
    rfl (by norm_num)

end MeditationPal
